import Mathlib

/-!
Shallow embedding of the workout-recommendation HTTP gateway (src/server.js)
and proofs of its specified properties.

The gateway serves a static catalog (category → subcategory → exercise list),
maps coarse difficulty aliases to catalog labels, filters the catalog, proxies
numeric-profile requests to a remote service, and exposes a health check.
JavaScript objects iterated with for..in are embedded as association lists in
insertion order; JSON values relevant to validation are embedded as `JVal`;
the possibility of an outbound HTTP call is made explicit as a `List OutCall`
component of every handler result.
-/

namespace Gateway

/-- An exercise record. Only the difficulty label `kesulitan` is inspected by
the code; all other descriptive fields are opaque and collapsed into `name`. -/
structure Workout where
  name : String
  kesulitan : String
deriving DecidableEq, Repr

/-- A category's contents: subcategory name → ordered exercise list,
in iteration (insertion) order. -/
abbrev Subcats := List (String × List Workout)

/-- The catalog: category name → subcategories, in iteration (insertion)
order. Embeds the object exported by `./workouts`. -/
abbrev Catalog := List (String × Subcats)

/-- `mapDifficultyLevel` (server.js:21-28): look up the alias among the
difficulty map's own keys; an unrecognized alias falls through unchanged
(`difficultyMap[difficultyLevel] || difficultyLevel`; the mapped labels are
nonempty strings, hence truthy). -/
def mapDifficultyLevel (difficultyLevel : String) : String :=
  if difficultyLevel = "beginner" then "Easy"
  else if difficultyLevel = "intermediate" then "Medium"
  else if difficultyLevel = "advanced" then "Hard"
  else difficultyLevel

/-- Truthiness of an optional string field of a JSON body: absent (`none`)
and the empty string are falsy, every other string is truthy. -/
def strTruthy : Option String → Bool
  | none => false
  | some s => s ≠ ""

/-- A JSON value as far as Route B's validation inspects it. `undefined`
stands for an absent field. Numbers are embedded as rationals (JSON numerals
are finite decimals). -/
inductive JVal where
  | undefined
  | null
  | bool (b : Bool)
  | num (q : ℚ)
  | str (s : String)
deriving DecidableEq, Repr

/-- JavaScript truthiness of a `JVal` (`!x` is its negation). -/
def truthy : JVal → Bool
  | .undefined => false
  | .null => false
  | .bool b => b
  | .num q => q ≠ 0
  | .str s => s ≠ ""

/-- Parse a (signed) decimal numeral: optional sign, digits, optional
fractional part. Returns `none` when the string is not such a numeral.
Embeds the numeric strings accepted by both `Number` and `parseFloat`;
exotic forms (hex, exponents, surrounding whitespace) are out of scope, as
no request field in the claims uses them. -/
def parseDecimal (s : String) : Option ℚ :=
  let cs := s.toList
  let (sign, rest) : ℚ × List Char :=
    match cs with
    | '-' :: t => (-1, t)
    | '+' :: t => (1, t)
    | t => (1, t)
  let intPart := rest.takeWhile (fun c => c.isDigit)
  let rest2 := rest.dropWhile (fun c => c.isDigit)
  let toNat (l : List Char) : ℕ := l.foldl (fun a c => a * 10 + (c.toNat - '0'.toNat)) 0
  match rest2 with
  | [] =>
      if intPart = [] then none
      else some (sign * (toNat intPart : ℚ))
  | '.' :: frac =>
      if frac.all (fun c => c.isDigit) ∧ (intPart ≠ [] ∨ frac ≠ []) then
        some (sign * ((toNat intPart : ℚ) + (toNat frac : ℚ) / (10 : ℚ) ^ frac.length))
      else none
  | _ => none

/-- `Number(x)` coercion as used by `isNaN(x)`; `none` encodes NaN.
The empty string coerces to 0 (it is rejected earlier by truthiness). -/
def toNumber : JVal → Option ℚ
  | .undefined => none
  | .null => some 0
  | .bool b => some (if b then 1 else 0)
  | .num q => some q
  | .str s => if s = "" then some 0 else parseDecimal s

/-- `parseFloat(x)`; `none` encodes NaN. Non-string non-number values
stringify to non-numerals and parse to NaN. -/
def parseFloatJ : JVal → Option ℚ
  | .num q => some q
  | .str s => parseDecimal s
  | _ => none

/-- An outbound HTTP POST issued by a handler. `none` in a numeric field
encodes NaN. -/
structure OutCall where
  url : String
  age : Option ℚ
  height : Option ℚ
  weight : Option ℚ
deriving DecidableEq, Repr

/-- The error payload of an upstream (remote-service) error response:
its HTTP status and the `error` field of its body (`none` when absent). -/
structure UpstreamResp where
  status : ℕ
  dataError : Option String
deriving DecidableEq, Repr

/-- An axios failure as far as the code inspects it: the error `code`, the
upstream `response` when the remote service answered with an error status,
and the human-readable `message`. -/
structure AxiosErr where
  code : Option String
  response : Option UpstreamResp
  message : String
deriving DecidableEq, Repr

/-- A response sent by the gateway. `recs` is `{success:true,
recommendations}`, `err` is `errorResponse`'s `{success:false, error}` with
the given HTTP status, `relay` relays an upstream JSON body verbatim
(embedded as an opaque string), `health` is the health-check body, `file`
serves a static file. All constructors except `err` are sent with status
200 via `res.json` / `res.sendFile`. -/
inductive Response where
  | recs (recommendations : List Workout)
  | err (status : ℕ) (message : String)
  | relay (body : String)
  | health (expressServer : String) (pythonServer : String) (error : Option String)
  | file (path : String)
deriving DecidableEq, Repr

/-- The HTTP status a `Response` is sent with. -/
def respStatus : Response → ℕ
  | .err s _ => s
  | _ => 200

/-- The `success` field of a response body, when the body has one. -/
def respSuccess : Response → Option Bool
  | .recs _ => some true
  | .err _ _ => some false
  | _ => none

/-- The nested for..in accumulation of one category's subcategory lists
(server.js:60-63): `typeWorkouts = [...typeWorkouts, ...workouts[t][sub]]`. -/
def flattenSub (subs : Subcats) : List Workout :=
  subs.foldl (fun acc p => acc ++ p.2) []

/-- The doubly nested for..in accumulation over every category and
subcategory (server.js:43-48). -/
def flattenAll (catalog : Catalog) : List Workout :=
  catalog.foldl (fun acc p => p.2.foldl (fun acc2 q => acc2 ++ q.2) acc) []

/-- Handler of POST /api/recommend (server.js:31-80). Returns the response
together with the (empty) list of outbound calls it issues. -/
def routeA (catalog : Catalog) (workoutType difficultyLevel : Option String) :
    Response × List OutCall :=
  if strTruthy workoutType = false then
    (.err 400 "Workout type is required", [])
  else if workoutType = some "semua" then
    let allWorkouts := flattenAll catalog
    let allWorkouts :=
      match difficultyLevel with
      | some s =>
          if s ≠ "" ∧ s ≠ "all" then
            allWorkouts.filter (fun w => w.kesulitan = mapDifficultyLevel s)
          else allWorkouts
      | none => allWorkouts
    (.recs allWorkouts, [])
  else
    match List.lookup (workoutType.getD "") catalog with
    | some subs =>
      let typeWorkouts := flattenSub subs
      let typeWorkouts :=
        match difficultyLevel with
        | some s =>
            if s ≠ "" ∧ s ≠ "all" then
              typeWorkouts.filter (fun w => w.kesulitan = mapDifficultyLevel s)
            else typeWorkouts
        | none => typeWorkouts
      (.recs typeWorkouts, [])
    | none => (.err 400 "Invalid workout type", [])

/-- The fixed remote-service base URL (server.js:8). -/
def PYTHON_API_URL : String := "https://backendpy-production.up.railway.app/"

/-- Route B's input validation (server.js:94): the request is rejected when
any field is falsy or coerces to NaN. -/
def validProfile (age height weight : JVal) : Bool :=
  truthy age && truthy height && truthy weight &&
    (toNumber age).isSome && (toNumber height).isSome && (toNumber weight).isSome

/-- The catch-block classification of a failed outbound call
(server.js:108-123): connection refused or unresolvable host → 503;
an upstream error response → its own status, message prefixed with
"Python server error: " (falling back to "Unknown error" when the upstream
body's `error` field is falsy); anything else → 500. -/
def classifyAxiosError (e : AxiosErr) : Response :=
  if e.code = some "ECONNREFUSED" ∨ e.code = some "ENOTFOUND" then
    .err 503 "Python server is not available. Please try again later."
  else
    match e.response with
    | some r =>
        .err r.status ("Python server error: " ++
          (match r.dataError with
           | some s => if s = "" then "Unknown error" else s
           | none => "Unknown error"))
    | none => .err 500 "Failed to process request with Python server"

/-- Handler of POST /api/recommendations (server.js:90-124). `outcome` is
the result the single outbound call would produce; it is consulted only
after validation passes, and the returned call list records whether the
call was actually issued. -/
def routeB (age height weight : JVal) (outcome : Except AxiosErr String) :
    Response × List OutCall :=
  if validProfile age height weight = false then
    (.err 400 "Missing required fields or invalid data types", [])
  else
    let call : OutCall :=
      { url := PYTHON_API_URL ++ "/api/recommend"
        age := parseFloatJ age
        height := parseFloatJ height
        weight := parseFloatJ weight }
    match outcome with
    | .ok body => (.relay body, [call])
    | .error e => (classifyAxiosError e, [call])

/-- Handler of GET /api/health (server.js:127-142). `outcome` is the result
of the bounded outbound health call: on success the upstream body's `status`
field (`none` when absent), on failure the error message. Both branches
answer with `res.json` (status 200). -/
def healthHandler (outcome : Except String (Option String)) : Response :=
  match outcome with
  | .ok st =>
      .health "ok"
        (match st with
         | some s => if s = "" then "ok" else s
         | none => "ok")
        none
  | .error msg => .health "ok" "offline" (some msg)

/-- HTTP method of a request. -/
inductive Method where
  | get
  | post
deriving DecidableEq, Repr

/-- A route pattern: an exact path, or the catch-all pattern of
`app.get('*')`. -/
inductive PathPat where
  | exact (p : String)
  | wildcard
deriving DecidableEq, Repr

/-- Identifier of each registered handler, in source order. -/
inductive RouteId where
  | apiRecommend
  | legacyRecommend
  | apiRecommendations
  | apiHealth
  | fallback
deriving DecidableEq, Repr

/-- The router's registration table, in registration order
(server.js:31, 83, 90, 127, 145). -/
def routeTable : List (Method × PathPat × RouteId) :=
  [(.post, .exact "/api/recommend", .apiRecommend),
   (.post, .exact "/recommend", .legacyRecommend),
   (.post, .exact "/api/recommendations", .apiRecommendations),
   (.get, .exact "/api/health", .apiHealth),
   (.get, .wildcard, .fallback)]

/-- Whether a pattern matches a request path. -/
def matchPat : PathPat → String → Bool
  | .exact p, url => p = url
  | .wildcard, _ => true

/-- First-match dispatch over the registration table. -/
def dispatch (m : Method) (url : String) : Option RouteId :=
  (routeTable.find? (fun e => e.1 = m && matchPat e.2.1 url)).map (fun e => e.2.2)

/-- An incoming request: method, path, and the body fields any handler
reads. Absent body fields are `none` / `JVal.undefined`. -/
structure Request where
  method : Method
  url : String
  workoutType : Option String
  difficultyLevel : Option String
  age : JVal
  height : JVal
  weight : JVal

/-- The per-request environment: the loaded catalog and the outcomes the
outbound calls would produce. -/
structure Env where
  catalog : Catalog
  upstream : Except AxiosErr String
  healthOutcome : Except String (Option String)

/-- Run the handler identified by `id` on a request. The legacy handler
(server.js:83-87) rewrites `req.url` to "/api/recommend" and re-enters the
router (`app._router.handle`); the fuel bounds that re-entry and is never
exhausted in practice. -/
def exec (env : Env) : ℕ → RouteId → Request → Option (Response × List OutCall)
  | _, .apiRecommend, req =>
      some (routeA env.catalog req.workoutType req.difficultyLevel)
  | 0, .legacyRecommend, _ => none
  | fuel + 1, .legacyRecommend, req =>
      let req2 := { req with url := "/api/recommend" }
      match dispatch req2.method req2.url with
      | some r => exec env fuel r req2
      | none => none
  | _, .apiRecommendations, req =>
      some (routeB req.age req.height req.weight env.upstream)
  | _, .apiHealth, _ => some (healthHandler env.healthOutcome, [])
  | _, .fallback, _ => some (.file "dist/index.html", [])

/-! ### Helper lemmas -/

lemma foldl_append_eq (subs : Subcats) (acc : List Workout) :
    subs.foldl (fun a p => a ++ p.2) acc = acc ++ (subs.map (fun p => p.2)).flatten := by
  induction subs generalizing acc with
  | nil => simp
  | cons hd tl ih => simp [List.foldl_cons, ih, List.append_assoc]

lemma flattenSub_eq (subs : Subcats) :
    flattenSub subs = (subs.map (fun p => p.2)).flatten := by
  simpa using foldl_append_eq subs []

lemma flattenAll_acc (catalog : Catalog) (acc : List Workout) :
    catalog.foldl (fun a p => p.2.foldl (fun a2 q => a2 ++ q.2) a) acc =
      acc ++ (catalog.map (fun p => (p.2.map (fun q => q.2)).flatten)).flatten := by
  induction catalog generalizing acc with
  | nil => simp
  | cons hd tl ih =>
      rw [List.foldl_cons, foldl_append_eq, ih, List.map_cons, List.flatten_cons,
        List.append_assoc]

lemma flattenAll_eq (catalog : Catalog) :
    flattenAll catalog = (catalog.map (fun p => (p.2.map (fun q => q.2)).flatten)).flatten := by
  simpa using flattenAll_acc catalog []

lemma flattenAll_length (catalog : Catalog) :
    (flattenAll catalog).length =
      (catalog.map (fun p => (p.2.map (fun q => q.2.length)).sum)).sum := by
  rw [flattenAll_eq, List.length_flatten, List.map_map]
  congr 1
  refine List.map_congr_left ?_
  intro p _
  simp [Function.comp, List.length_flatten, List.map_map, Function.comp_def]

/-- A small concrete catalog used to witness the universally quantified
theorems on concrete inputs. -/
def sampleCatalog : Catalog :=
  [("strength",
     [("upper", [⟨"pushup", "Easy"⟩, ⟨"bench press", "Hard"⟩]),
      ("lower", [⟨"squat", "Medium"⟩])]),
   ("endurance",
     [("cardio", [⟨"running", "Easy"⟩])])]

/-! ### Claim theorems -/

/-- C1: selecting the sentinel category "semua" (all categories) with no
effective difficulty filter (difficulty absent, empty, or the sentinel
"all") returns the concatenation of every subcategory list across every
category, in category-then-subcategory-then-record order, and its length is
the sum of the lengths of all subcategory lists. -/
theorem routeA_semua_flattens_all (catalog : Catalog) (dl : Option String)
    (h : dl = none ∨ dl = some "" ∨ dl = some "all") :
    (routeA catalog (some "semua") dl).1 = .recs (flattenAll catalog) ∧
    flattenAll catalog =
      (catalog.map (fun p => (p.2.map (fun q => q.2)).flatten)).flatten ∧
    (flattenAll catalog).length =
      (catalog.map (fun p => (p.2.map (fun q => q.2.length)).sum)).sum := by
  refine ⟨?_, flattenAll_eq catalog, flattenAll_length catalog⟩
  rcases h with h | h | h <;> subst h <;> simp [routeA, strTruthy]

theorem routeA_semua_flattens_all_witness :
    ((none : Option String) = none ∨ (none : Option String) = some "" ∨
      (none : Option String) = some "all") ∧
    ((routeA sampleCatalog (some "semua") none).1 = .recs (flattenAll sampleCatalog) ∧
     flattenAll sampleCatalog =
       (sampleCatalog.map (fun p => (p.2.map (fun q => q.2)).flatten)).flatten ∧
     (flattenAll sampleCatalog).length =
       (sampleCatalog.map (fun p => (p.2.map (fun q => q.2.length)).sum)).sum) :=
  ⟨Or.inl rfl, routeA_semua_flattens_all sampleCatalog none (Or.inl rfl)⟩

/-- C2: the difficulty mapper sends each recognized alias to its configured
catalog label and leaves every other string unchanged. -/
theorem mapDifficultyLevel_spec :
    (mapDifficultyLevel "beginner" = "Easy" ∧
     mapDifficultyLevel "intermediate" = "Medium" ∧
     mapDifficultyLevel "advanced" = "Hard") ∧
    ∀ s : String, s ≠ "beginner" → s ≠ "intermediate" → s ≠ "advanced" →
      mapDifficultyLevel s = s := by
  refine ⟨⟨rfl, rfl, rfl⟩, ?_⟩
  intro s h1 h2 h3
  simp [mapDifficultyLevel, h1, h2, h3]

theorem mapDifficultyLevel_spec_witness :
    ("expert" ≠ "beginner" ∧ "expert" ≠ "intermediate" ∧ "expert" ≠ "advanced") ∧
    mapDifficultyLevel "expert" = "expert" :=
  ⟨⟨by decide, by decide, by decide⟩,
   mapDifficultyLevel_spec.2 "expert" (by decide) (by decide) (by decide)⟩

/-- C3: with a present difficulty alias different from the sentinel "all",
the selection retains exactly the records whose difficulty label equals the
mapped alias (an exact-equality filter, in both the "semua" branch and the
specific-category branch), and zero matches yield a successful empty
result, not an error. -/
theorem routeA_difficulty_filter (catalog : Catalog) (s : String)
    (hne : s ≠ "") (hall : s ≠ "all") :
    (routeA catalog (some "semua") (some s)).1 =
      .recs ((flattenAll catalog).filter
        (fun w => w.kesulitan = mapDifficultyLevel s)) ∧
    (∀ wt subs, wt ≠ "semua" → wt ≠ "" → List.lookup wt catalog = some subs →
      (routeA catalog (some wt) (some s)).1 =
        .recs ((flattenSub subs).filter
          (fun w => w.kesulitan = mapDifficultyLevel s))) ∧
    (∀ w : Workout,
      w ∈ (flattenAll catalog).filter (fun w => w.kesulitan = mapDifficultyLevel s) ↔
      w ∈ flattenAll catalog ∧ w.kesulitan = mapDifficultyLevel s) ∧
    ((∀ w ∈ flattenAll catalog, w.kesulitan ≠ mapDifficultyLevel s) →
      (routeA catalog (some "semua") (some s)).1 = .recs []) := by
  have hsem : (routeA catalog (some "semua") (some s)).1 =
      .recs ((flattenAll catalog).filter
        (fun w => w.kesulitan = mapDifficultyLevel s)) := by
    simp [routeA, strTruthy, hne, hall]
  refine ⟨hsem, ?_, ?_, ?_⟩
  · intro wt subs hwt hwt0 hlook
    simp [routeA, strTruthy, hne, hall, hwt, hwt0, hlook]
  · intro w
    simp [List.mem_filter]
  · intro hnone
    rw [hsem]
    have : (flattenAll catalog).filter (fun w => w.kesulitan = mapDifficultyLevel s) = [] := by
      rw [List.filter_eq_nil_iff]
      intro a ha
      simpa using hnone a ha
    rw [this]

theorem routeA_difficulty_filter_witness :
    (("advanced" : String) ≠ "" ∧ ("advanced" : String) ≠ "all") ∧
    (routeA sampleCatalog (some "semua") (some "advanced")).1 =
      .recs ((flattenAll sampleCatalog).filter
        (fun w => w.kesulitan = mapDifficultyLevel "advanced")) :=
  ⟨⟨by decide, by decide⟩,
   (routeA_difficulty_filter sampleCatalog "advanced" (by decide) (by decide)).1⟩

/-- C6: a category that is neither the sentinel "semua" nor a key of the
catalog yields a 400 response with success:false and the message
"Invalid workout type", and no outbound call is issued. -/
theorem routeA_invalid_category (catalog : Catalog) (wt : String) (dl : Option String)
    (hne : wt ≠ "") (hsem : wt ≠ "semua") (hlook : List.lookup wt catalog = none) :
    routeA catalog (some wt) dl = (.err 400 "Invalid workout type", []) ∧
    respStatus (routeA catalog (some wt) dl).1 = 400 ∧
    respSuccess (routeA catalog (some wt) dl).1 = some false ∧
    (routeA catalog (some wt) dl).2 = [] := by
  have h : routeA catalog (some wt) dl = (.err 400 "Invalid workout type", []) := by
    simp [routeA, strTruthy, hne, hsem, hlook]
  exact ⟨h, by rw [h]; rfl, by rw [h]; rfl, by rw [h]⟩

theorem routeA_invalid_category_witness :
    (("yoga" : String) ≠ "" ∧ ("yoga" : String) ≠ "semua" ∧
      List.lookup "yoga" sampleCatalog = none) ∧
    routeA sampleCatalog (some "yoga") none = (.err 400 "Invalid workout type", []) :=
  ⟨⟨by decide, by decide, by decide⟩,
   (routeA_invalid_category sampleCatalog "yoga" none (by decide) (by decide)
      (by decide)).1⟩

/-- C7: an absent or empty workoutType yields a 400 response with
success:false and the message "Workout type is required", and the catalog
is never consulted (the response is the same for every catalog). -/
theorem routeA_missing_workoutType (catalog catalog2 : Catalog) (dl : Option String) :
    routeA catalog none dl = (.err 400 "Workout type is required", []) ∧
    routeA catalog (some "") dl = (.err 400 "Workout type is required", []) ∧
    routeA catalog none dl = routeA catalog2 none dl ∧
    routeA catalog (some "") dl = routeA catalog2 (some "") dl ∧
    respStatus (routeA catalog none dl).1 = 400 ∧
    respSuccess (routeA catalog none dl).1 = some false := by
  refine ⟨?_, ?_, ?_, ?_, ?_, ?_⟩ <;> simp [routeA, strTruthy, respStatus, respSuccess]

/-- C4 (counterexample): age = 0 is present (not undefined or null) and
parseable as a number, and height and weight are ordinary numbers, yet the
request is rejected with 400 and no outbound call is issued — refuting the
claim that presence and parseability of all three fields suffice for the
call to be made. -/
theorem routeB_present_parseable_counterexample :
    (JVal.num 0 ≠ JVal.undefined ∧ JVal.num 0 ≠ JVal.null) ∧
    toNumber (JVal.num 0) = some 0 ∧
    toNumber (JVal.num 170) = some 170 ∧
    toNumber (JVal.num 60) = some 60 ∧
    routeB (JVal.num 0) (JVal.num 170) (JVal.num 60) (.ok "body") =
      (.err 400 "Missing required fields or invalid data types", []) :=
  ⟨⟨by decide, by decide⟩, rfl, rfl, rfl, rfl⟩

/-- C4 (amended): a request whose validation fails — in particular whenever
a field is missing or not parseable as a number — yields 400 with no
outbound call; conversely, when all three fields are truthy and parseable
(validation passes), exactly one outbound call is issued, carrying the
three values coerced via parseFloat. -/
theorem routeB_validation (a b c : JVal) (outcome : Except AxiosErr String) :
    ((a = .undefined ∨ b = .undefined ∨ c = .undefined ∨
      toNumber a = none ∨ toNumber b = none ∨ toNumber c = none) →
      validProfile a b c = false) ∧
    (validProfile a b c = false →
      routeB a b c outcome =
        (.err 400 "Missing required fields or invalid data types", [])) ∧
    (validProfile a b c = true →
      (routeB a b c outcome).2 =
        [{ url := PYTHON_API_URL ++ "/api/recommend",
           age := parseFloatJ a, height := parseFloatJ b, weight := parseFloatJ c }]) := by
  refine ⟨?_, ?_, ?_⟩
  · intro h
    rcases h with h | h | h | h | h | h
    · subst h; simp [validProfile, truthy]
    · subst h; simp [validProfile, truthy]
    · subst h; simp [validProfile, truthy]
    · simp [validProfile, h]
    · simp [validProfile, h]
    · simp [validProfile, h]
  · intro h
    simp [routeB, h]
  · intro h
    cases outcome <;> simp [routeB, h]

theorem routeB_validation_witness :
    validProfile (JVal.num 25) (JVal.num 170) (JVal.num 60) = true ∧
    (routeB (JVal.num 25) (JVal.num 170) (JVal.num 60) (.ok "body")).2 =
      [{ url := PYTHON_API_URL ++ "/api/recommend",
         age := parseFloatJ (JVal.num 25), height := parseFloatJ (JVal.num 170),
         weight := parseFloatJ (JVal.num 60) }] :=
  ⟨rfl,
   (routeB_validation (JVal.num 25) (JVal.num 170) (JVal.num 60) (.ok "body")).2.2 rfl⟩

/-- C10: a field equal to the number 0 — present and parseable as a number,
but falsy — is rejected with 400 in any of the three positions, and no
outbound call is made. -/
theorem routeB_rejects_zero (a b : JVal) (outcome : Except AxiosErr String) :
    truthy (JVal.num 0) = false ∧
    toNumber (JVal.num 0) = some 0 ∧
    routeB (JVal.num 0) a b outcome =
      (.err 400 "Missing required fields or invalid data types", []) ∧
    routeB a (JVal.num 0) b outcome =
      (.err 400 "Missing required fields or invalid data types", []) ∧
    routeB a b (JVal.num 0) outcome =
      (.err 400 "Missing required fields or invalid data types", []) := by
  refine ⟨rfl, rfl, ?_, ?_, ?_⟩ <;> simp [routeB, validProfile, truthy]

/-- C5: on a failing outbound call the response is classified exhaustively:
connection-refused or unresolvable host gives 503; an upstream error
response gives the upstream's own status with the message prefixed
"Python server error: "; any other failure gives a generic 500; and on
upstream success the upstream body is relayed verbatim. -/
theorem routeB_error_classification (a b c : JVal) (e : AxiosErr) (body : String)
    (hv : validProfile a b c = true) :
    (e.code = some "ECONNREFUSED" ∨ e.code = some "ENOTFOUND" →
      (routeB a b c (.error e)).1 =
        .err 503 "Python server is not available. Please try again later.") ∧
    (¬(e.code = some "ECONNREFUSED" ∨ e.code = some "ENOTFOUND") →
      ∀ r, e.response = some r →
        (routeB a b c (.error e)).1 =
          .err r.status ("Python server error: " ++
            (match r.dataError with
             | some s => if s = "" then "Unknown error" else s
             | none => "Unknown error"))) ∧
    (¬(e.code = some "ECONNREFUSED" ∨ e.code = some "ENOTFOUND") →
      e.response = none →
        (routeB a b c (.error e)).1 =
          .err 500 "Failed to process request with Python server") ∧
    (routeB a b c (.ok body)).1 = .relay body := by
  refine ⟨?_, ?_, ?_, ?_⟩
  · intro h
    simp [routeB, hv, classifyAxiosError, h]
  · intro h r hr
    simp [routeB, hv, classifyAxiosError, h, hr]
  · intro h hr
    simp [routeB, hv, classifyAxiosError, h, hr]
  · simp [routeB, hv]

theorem routeB_error_classification_witness :
    validProfile (JVal.num 25) (JVal.num 170) (JVal.num 60) = true ∧
    ((AxiosErr.mk (some "ECONNREFUSED") none "connect ECONNREFUSED").code =
        some "ECONNREFUSED" ∨
      (AxiosErr.mk (some "ECONNREFUSED") none "connect ECONNREFUSED").code =
        some "ENOTFOUND") ∧
    (routeB (JVal.num 25) (JVal.num 170) (JVal.num 60)
        (.error (AxiosErr.mk (some "ECONNREFUSED") none "connect ECONNREFUSED"))).1 =
      .err 503 "Python server is not available. Please try again later." :=
  ⟨rfl, Or.inl rfl,
   (routeB_error_classification (JVal.num 25) (JVal.num 170) (JVal.num 60)
      (AxiosErr.mk (some "ECONNREFUSED") none "connect ECONNREFUSED") "body"
      rfl).1 (Or.inl rfl)⟩

/-- C8: the health check never fails from the caller's perspective: for
every outcome of the bounded outbound health call it answers with status
200 and reports the gateway itself as "ok"; when the remote call fails it
reports pythonServer "offline" together with the failure reason. -/
theorem healthHandler_never_fails :
    (∀ outcome, respStatus (healthHandler outcome) = 200) ∧
    (∀ outcome, ∃ p er, healthHandler outcome = .health "ok" p er) ∧
    (∀ msg, healthHandler (.error msg) = .health "ok" "offline" (some msg)) := by
  refine ⟨?_, ?_, ?_⟩
  · intro outcome
    cases outcome <;> rfl
  · intro outcome
    cases outcome with
    | ok st => exact ⟨_, _, rfl⟩
    | error msg => exact ⟨_, _, rfl⟩
  · intro msg
    rfl

theorem routeA_missing_workoutType_witness :
    routeA sampleCatalog none none = (.err 400 "Workout type is required", []) :=
  (routeA_missing_workoutType sampleCatalog [] none).1

theorem routeB_rejects_zero_witness :
    routeB (JVal.num 170) (JVal.num 0) (JVal.num 60) (.ok "body") =
      (.err 400 "Missing required fields or invalid data types", []) :=
  (routeB_rejects_zero (JVal.num 170) (JVal.num 60) (.ok "body")).2.2.2.1

theorem healthHandler_never_fails_witness :
    healthHandler (.error "timeout of 5000ms exceeded") =
      .health "ok" "offline" (some "timeout of 5000ms exceeded") :=
  healthHandler_never_fails.2.2 "timeout of 5000ms exceeded"

/-- C9: for every POST request body and environment, the legacy route
/recommend — which rewrites the URL to "/api/recommend" and re-enters the
router — produces exactly the same result as dispatching the request to the
/api/recommend handler directly: the rewritten URL's first match in the
registration table is the /api/recommend handler, which reads only the body
fields, so status and body coincide. -/
theorem legacy_route_equiv (env : Env) (req : Request) (fuel : ℕ)
    (hm : req.method = .post) :
    exec env (fuel + 1) .legacyRecommend req =
      some (routeA env.catalog req.workoutType req.difficultyLevel) ∧
    exec env (fuel + 1) .legacyRecommend req = exec env fuel .apiRecommend req := by
  have hdisp : dispatch req.method "/api/recommend" = some .apiRecommend := by
    rw [hm]; rfl
  have hA : ∀ (f : ℕ) (r : Request),
      exec env f .apiRecommend r =
        some (routeA env.catalog r.workoutType r.difficultyLevel) := by
    intro f r
    cases f <;> rfl
  have h1 : exec env (fuel + 1) .legacyRecommend req =
      some (routeA env.catalog req.workoutType req.difficultyLevel) := by
    show (match dispatch req.method "/api/recommend" with
      | some r => exec env fuel r { req with url := "/api/recommend" }
      | none => none) =
      some (routeA env.catalog req.workoutType req.difficultyLevel)
    rw [hdisp]
    exact hA fuel { req with url := "/api/recommend" }
  exact ⟨h1, h1.trans (hA fuel req).symm⟩

/-- Concrete environment for the router witness. -/
def sampleEnv : Env :=
  { catalog := sampleCatalog, upstream := .ok "upstream body", healthOutcome := .ok none }

/-- Concrete legacy-route request for the router witness. -/
def sampleLegacyReq : Request :=
  { method := .post, url := "/recommend", workoutType := some "semua",
    difficultyLevel := none, age := .undefined, height := .undefined,
    weight := .undefined }

theorem legacy_route_equiv_witness :
    sampleLegacyReq.method = .post ∧
    (exec sampleEnv 2 .legacyRecommend sampleLegacyReq =
      some (routeA sampleEnv.catalog sampleLegacyReq.workoutType
        sampleLegacyReq.difficultyLevel) ∧
     exec sampleEnv 2 .legacyRecommend sampleLegacyReq =
       exec sampleEnv 1 .apiRecommend sampleLegacyReq) :=
  ⟨rfl, legacy_route_equiv sampleEnv sampleLegacyReq 1 rfl⟩

end Gateway
